import Mathlib

/-!
Verification development for the SpotDailyReview repository.

The repository has two cores, both modelled here as a shallow embedding:

* `review.py` — `PowerDataAnalyzer`: a layered filter over a trading
  dataframe (`filter_by_price_range`) and ten derived metrics.
* `app.py` / `preprocess_data.py` — the boundary-data reconciliation:
  nine spreadsheet sources are normalized, outer/left joined on the
  (日期, 时点) key, concatenated into a forecast partition and a realtime
  partition, column-completed and sorted.

A pandas dataframe is modelled as a list of column names together with a
list of rows; a row is an association list from column names to cells.
A cell is null (NaN), a rational number (floats are modelled exactly by
rationals), or a string.  Looking up a column that carries no binding in
a row yields null, which matches pandas semantics for rows introduced by
outer joins and for structurally-added null columns.  Python exceptions
(`KeyError` from a missing column, unparseable filter dates) are
modelled with `Except`.
-/

/-- Cell of a dataframe: NaN, a numeric value, or a string value. -/
inductive Cell where
  | null : Cell
  | num (q : ℚ) : Cell
  | str (s : String) : Cell
deriving DecidableEq

/-- Row of a dataframe: an association list from column names to cells. -/
abbrev Row := List (String × Cell)

/-- Reading a column from a row; a column with no binding reads as null. -/
def getCell (r : Row) (c : String) : Cell :=
  match r with
  | [] => Cell.null
  | p :: t => if p.1 = c then p.2 else getCell t c

/-- Whether a row carries a binding for a column. -/
def hasCol (r : Row) (c : String) : Bool :=
  r.any (fun pr => decide (pr.1 = c))

/-- Dataframe: ordered column names plus rows. -/
structure DataFrame where
  cols : List String
  rows : List Row
deriving DecidableEq

instance : DecidableEq (Except String (DataFrame × List String)) := fun a b =>
  match a, b with
  | Except.ok x, Except.ok y => decidable_of_iff (x = y) (by simp)
  | Except.error x, Except.error y => decidable_of_iff (x = y) (by simp)
  | Except.ok _, Except.error _ => isFalse (by simp)
  | Except.error _, Except.ok _ => isFalse (by simp)

instance : DecidableEq (Except String ℚ) := fun a b =>
  match a, b with
  | Except.ok x, Except.ok y => decidable_of_iff (x = y) (by simp)
  | Except.error x, Except.error y => decidable_of_iff (x = y) (by simp)
  | Except.ok _, Except.error _ => isFalse (by simp)
  | Except.error _, Except.ok _ => isFalse (by simp)

/-! ## review.py — PowerDataAnalyzer -/

/-- Company-to-conversion-factor table (review.py, `power_conversion_factors`). -/
def power_conversion_factors : List (String × ℚ) :=
  [("同华", 660/660), ("塔山", 660/600), ("阳高", 660/350), ("同达", 660/330),
   ("王坪", 660/200), ("蒲洲", 660/350), ("河津", 660/350), ("临汾", 660/300),
   ("侯马", 660/300)]

/-- Default factor for an unknown or unspecified company. -/
def default_power_conversion_factor : ℚ := 1

/-- review.py `_get_power_conversion_factor`. -/
def get_power_conversion_factor (company : Option String) : ℚ :=
  match company with
  | none => default_power_conversion_factor
  | some n => (List.lookup n power_conversion_factors).getD default_power_conversion_factor

/-- Numeric value of the digit list, most significant first. -/
def digitRunVal (ds : List Char) : Nat :=
  ds.foldl (fun a c => a * 10 + (c.toNat - 48)) 0

/-- First maximal run of consecutive digits in a character list. -/
def firstDigitRun : List Char → Option (List Char)
  | [] => none
  | c :: rest =>
    if c.isDigit then some (c :: rest.takeWhile (fun d => d.isDigit))
    else firstDigitRun rest

/-- Python `re.search` for one-or-more digits followed by `int(...)`:
the value of the first maximal digit run of the string, if any. -/
def searchFirstNumber (s : String) : Option Nat :=
  (firstDigitRun s.data).map digitRunVal

/-- review.py `determine_dimension` (inside `_add_unit_dimension_column`):
maps a unit name to its unit-group label.  A missing (NaN) name is
modelled as `none`. -/
def determine_dimension (unit_name : Option String) : String :=
  match unit_name with
  | none => "未知"
  | some s =>
    match searchFirstNumber s with
    | none => "未知"
    | some n =>
      if n = 1 ∨ n = 3 then "机组1&3组"
      else if n = 2 ∨ n = 4 then "机组2&4组"
      else "其他机组"

/-- Argument list of `filter_by_price_range` (and of every metric). -/
structure FilterParams where
  min_price : Option ℚ
  max_price : Option ℚ
  start_date : Option String
  end_date : Option String
  company_name : Option String
  unit_name : Option String
  unit_dimension : Option String
  include_min_boundary : Bool
  include_max_boundary : Bool
deriving DecidableEq

/-- Pandas comparison `value > m` resp. `value >= m`: true only for a
numeric cell satisfying the bound; NaN and strings compare false. -/
def cellPassMin (c : Cell) (m : ℚ) (incl : Bool) : Bool :=
  match c with
  | Cell.num q => if incl then decide (m ≤ q) else decide (m < q)
  | _ => false

/-- Pandas comparison `value < m` resp. `value <= m`. -/
def cellPassMax (c : Cell) (m : ℚ) (incl : Bool) : Bool :=
  match c with
  | Cell.num q => if incl then decide (q ≤ m) else decide (q < m)
  | _ => false

/-- Split a character list on a separator character. -/
def splitChar (sep : Char) : List Char → List (List Char)
  | [] => [[]]
  | c :: rest =>
    let r := splitChar sep rest
    if c = sep then [] :: r
    else
      match r with
      | [] => [[c]]
      | h :: t => (c :: h) :: t

/-- Date-string parsing for `pd.to_datetime` on a `YYYY-MM-DD` argument.
The encoding y*10000 + m*100 + d preserves chronological order; any
other shape parses to `none`. -/
def parseDateStr (s : String) : Option ℚ :=
  match splitChar ('-') s.data with
  | [y, m, d] =>
    if (decide (y ≠ []) && decide (m ≠ []) && decide (d ≠ []) &&
        (y ++ m ++ d).all (fun c => c.isDigit)) then
      let mv := digitRunVal m
      let dv := digitRunVal d
      if (decide (1 ≤ mv) && decide (mv ≤ 12) && decide (1 ≤ dv) && decide (dv ≤ 31)) then
        some ((digitRunVal y : ℚ) * 10000 + (mv : ℚ) * 100 + (dv : ℚ))
      else none
    else none
  | _ => none

/-- Date value of a cell under `pd.to_datetime(cell, errors='coerce')`:
numeric cells stand for timestamps, string cells are parsed as dates,
everything else coerces to NaT (`none`). -/
def dateVal (c : Cell) : Option ℚ :=
  match c with
  | Cell.num q => some q
  | Cell.str s => parseDateStr s
  | Cell.null => none

/-- Message of the Python `KeyError` raised when a missing column is indexed. -/
def keyError (c : String) : String := "KeyError: " ++ c

/-- Warning printed when the date column is absent but a date bound is set. -/
def dateWarning (date_column : String) : String :=
  "警告: 日期列" ++ date_column ++ "不存在，无法应用日期筛选"

/-- Warning printed when the unit-dimension column is absent but requested. -/
def dimensionWarning : String :=
  "警告: 数据中不包含机组维度列，无法应用机组维度筛选"

/-- Price bound stage of `filter_by_price_range`: a `None` bound is a
no-op; otherwise the rows are filtered on the price column, and indexing
an absent price column raises `KeyError`. -/
def price_stage (cols : List String) (bound : Option ℚ) (incl : Bool)
    (price_column : String) (test : Cell → ℚ → Bool → Bool) (rows : List Row) :
    Except String (List Row) :=
  match bound with
  | none => Except.ok rows
  | some m =>
    if price_column ∈ cols then
      Except.ok (rows.filter (fun r => test (getCell r price_column) m incl))
    else Except.error (keyError price_column)

/-- One date bound of the date stage: a no-op when unset, raising when
the bound string is unparseable, otherwise a comparison filter in which
NaT date cells fail. -/
def date_one (cmp : ℚ → ℚ → Bool) (b : Option String) (date_column : String)
    (rows : List Row) : Except String (List Row) :=
  match b with
  | none => Except.ok rows
  | some s =>
    match parseDateStr s with
    | none => Except.error ("无法解析日期: " ++ s)
    | some ts => Except.ok (rows.filter (fun r =>
        match dateVal (getCell r date_column) with
        | some d => cmp ts d
        | none => false))

/-- Date stage of `filter_by_price_range`: applied only when the date
column exists (otherwise a warning is surfaced when a bound is set);
`pd.to_datetime(start_date)` on an unparseable bound raises. -/
def date_stage (cols : List String) (sd ed : Option String) (date_column : String)
    (rows : List Row) : Except String (List Row × List String) :=
  if date_column ∈ cols then do
    let rows1 ← date_one (fun ts d => decide (ts ≤ d)) sd date_column rows
    let rows2 ← date_one (fun ts d => decide (d ≤ ts)) ed date_column rows1
    Except.ok (rows2, ([] : List String))
  else if sd.isSome || ed.isSome then Except.ok (rows, [dateWarning date_column])
  else Except.ok (rows, ([] : List String))

/-- Exact-match stage (company filter, unit filter): a no-op when the
value is unset or the column is absent (silently, per the source). -/
def exact_stage (cols : List String) (colName : String) (v : Option String)
    (rows : List Row) : List Row :=
  match v with
  | none => rows
  | some s =>
    if colName ∈ cols then rows.filter (fun r => decide (getCell r colName = Cell.str s))
    else rows

/-- Unit-dimension stage: exact match when the column exists, otherwise a
no-op with a surfaced warning. -/
def dimension_stage (cols : List String) (v : Option String) (rows : List Row) :
    List Row × List String :=
  match v with
  | none => (rows, ([] : List String))
  | some s =>
    if "机组维度" ∈ cols then
      (rows.filter (fun r => decide (getCell r ("机组维度") = Cell.str s)), ([] : List String))
    else (rows, [dimensionWarning])

/-- review.py `filter_by_price_range`: price filter, then date filter,
then company, unit and unit-dimension filters, with the warnings the
source prints surfaced in the second component. -/
def filter_by_price_range (df : DataFrame) (p : FilterParams)
    (price_column : String) (date_column : String) :
    Except String (DataFrame × List String) := do
  let rows1 ← price_stage df.cols p.min_price p.include_min_boundary price_column cellPassMin df.rows
  let rows2 ← price_stage df.cols p.max_price p.include_max_boundary price_column cellPassMax rows1
  let dated ← date_stage df.cols p.start_date p.end_date date_column rows2
  let rows4 := exact_stage df.cols ("公司名称") p.company_name dated.1
  let rows5 := exact_stage df.cols ("机组名称") p.unit_name rows4
  let dimmed := dimension_stage df.cols p.unit_dimension rows5
  Except.ok (⟨df.cols, dimmed.1⟩, dated.2 ++ dimmed.2)

/-- Numeric value of a cell with NaN as 0 (pandas `fillna(0)` / `sum`). -/
def numVal (c : Cell) : ℚ :=
  match c with
  | Cell.num q => q
  | _ => 0

/-- Column sum over rows, NaN contributing zero (pandas `Series.sum`). -/
def sumNum (rows : List Row) (c : String) : ℚ :=
  (rows.map (fun r => numVal (getCell r c))).sum

/-- review.py `calculate_daily_forward_hours` (metric 1): the filtered
row count over four, filtering on the forecast clearing node price. -/
def calculate_daily_forward_hours (df : DataFrame) (p : FilterParams) :
    Except String ℚ := do
  let fw ← filter_by_price_range df p ("日前出清节点价格") ("日期")
  Except.ok ((fw.1.rows.length : ℚ) / 4)

/-- review.py `calculate_realtime_hours` (metric 2): the metric-1 filter
followed, when the intraday price column exists, by the same price
bounds applied to the intraday clearing node price. -/
def calculate_realtime_hours (df : DataFrame) (p : FilterParams) :
    Except String ℚ := do
  let fw ← filter_by_price_range df p ("日前出清节点价格") ("日期")
  let rows1 :=
    if "日内出清节点价格" ∈ fw.1.cols then
      let ra := (match p.min_price with
        | none => fw.1.rows
        | some m => fw.1.rows.filter (fun r =>
            cellPassMin (getCell r ("日内出清节点价格")) m p.include_min_boundary))
      (match p.max_price with
        | none => ra
        | some m => ra.filter (fun r =>
            cellPassMax (getCell r ("日内出清节点价格")) m p.include_max_boundary))
    else fw.1.rows
  Except.ok ((rows1.length : ℚ) / 4)

/-- review.py `calculate_inter_provincial_avg_price` (metric 5): volume
weighted average of the cross-provincial day-ahead and real-time prices,
nulls as zero, 0.0 on a zero denominator. -/
def calculate_inter_provincial_avg_price (df : DataFrame) (p : FilterParams)
    (price_column : String) : Except String ℚ := do
  let fw ← filter_by_price_range df p price_column ("日期")
  if "省间日前出清电力" ∈ fw.1.cols then
    if "省间日前出清价格" ∈ fw.1.cols then
      if "省间实时出清电力" ∈ fw.1.cols then
        if "省间实时出清价格" ∈ fw.1.cols then
          let numerator := (fw.1.rows.map (fun r =>
            numVal (getCell r ("省间日前出清电力")) * numVal (getCell r ("省间日前出清价格")) +
            numVal (getCell r ("省间实时出清电力")) * numVal (getCell r ("省间实时出清价格")))).sum
          let denominator := (fw.1.rows.map (fun r =>
            numVal (getCell r ("省间实时出清电力")) + numVal (getCell r ("省间日前出清电力")))).sum
          if denominator = 0 then Except.ok 0
          else Except.ok (numerator / denominator)
        else Except.error (keyError ("省间实时出清价格"))
      else Except.error (keyError ("省间实时出清电力"))
    else Except.error (keyError ("省间日前出清价格"))
  else Except.error (keyError ("省间日前出清电力"))

/-- review.py `calculate_daily_forward_power` (metric 7): committed
day-ahead output summed over the filtered rows, divided by four,
converted by the company factor, divided by the hours of the same
filtered set; 0.0 on an empty set or zero hours. -/
def calculate_daily_forward_power (df : DataFrame) (p : FilterParams) :
    Except String ℚ := do
  let fw ← filter_by_price_range df p ("日前出清节点价格") ("日期")
  if fw.1.rows.isEmpty then Except.ok 0
  else
    let hours : ℚ := (fw.1.rows.length : ℚ) / 4
    if hours = 0 then Except.ok 0
    else if "日前中标出力" ∈ fw.1.cols then
      let total_power := sumNum fw.1.rows ("日前中标出力") / 4
      let factor := get_power_conversion_factor p.company_name
      Except.ok (total_power * factor / hours)
    else Except.error (keyError ("日前中标出力"))

/-- review.py `calculate_medium_long_weighted_avg_price` (metric 10):
volume-weighted average of the intra-provincial and cross-provincial
medium/long-term prices, nulls as zero, 0.0 on a zero denominator. -/
def calculate_medium_long_weighted_avg_price (df : DataFrame) (p : FilterParams)
    (price_column : String) : Except String ℚ := do
  let fw ← filter_by_price_range df p price_column ("日期")
  if "省内中长期上网电量" ∈ fw.1.cols then
    if "省内中长期均价" ∈ fw.1.cols then
      if "省间中长期上网电量" ∈ fw.1.cols then
        if "省间中长期均价" ∈ fw.1.cols then
          let numerator := (fw.1.rows.map (fun r =>
            numVal (getCell r ("省内中长期上网电量")) * numVal (getCell r ("省内中长期均价")) +
            numVal (getCell r ("省间中长期上网电量")) * numVal (getCell r ("省间中长期均价")))).sum
          let denominator := (fw.1.rows.map (fun r =>
            numVal (getCell r ("省内中长期上网电量")) + numVal (getCell r ("省间中长期上网电量")))).sum
          if denominator = 0 then Except.ok 0
          else Except.ok (numerator / denominator)
        else Except.error (keyError ("省间中长期均价"))
      else Except.error (keyError ("省间中长期上网电量"))
    else Except.error (keyError ("省内中长期均价"))
  else Except.error (keyError ("省内中长期上网电量"))

/-! ## app.py / preprocess_data.py — boundary-data reconciliation -/

/-- Join key of a row: the cells of the key columns, in order. -/
def keyOf (ks : List String) (r : Row) : List Cell :=
  ks.map (fun k => getCell r k)

/-- Key equality used by `pd.merge(on=ks)`; pandas matches NaN keys with
NaN keys, which cell equality reproduces. -/
def matchKey (ks : List String) (a b : Row) : Bool :=
  decide (keyOf ks a = keyOf ks b)

/-- Column set of a merge or concat result: left columns then the right
columns not already present. -/
def mergeCols (A B : DataFrame) : List String :=
  A.cols ++ B.cols.filter (fun c => !(A.cols.contains c))

/-- Rows a single left row contributes to a join: one combined row per
matching right row, or the left row alone (right columns null) when
nothing matches. -/
def matchRows (ks : List String) (B : List Row) (a : Row) : List Row :=
  let ms := B.filter (fun b => matchKey ks a b)
  if ms.isEmpty then [a] else ms.map (fun b => a ++ b)

/-- `pd.merge(A, B, on=ks, how='outer')`: the left-join part followed by
the right rows with no left partner (left columns null). -/
def mergeOuter (ks : List String) (A B : DataFrame) : DataFrame :=
  ⟨mergeCols A B,
   (A.rows.flatMap (matchRows ks B.rows)) ++
   (B.rows.filter (fun b => !(A.rows.any (fun a => matchKey ks a b))))⟩

/-- `pd.merge(A, B, on=ks, how='left')`: only the left-join part. -/
def mergeLeft (ks : List String) (A B : DataFrame) : DataFrame :=
  ⟨mergeCols A B, A.rows.flatMap (matchRows ks B.rows)⟩

/-- Projection of a row to the given columns (`df[cs]` row-wise). -/
def selectRow (cs : List String) (r : Row) : Row :=
  cs.map (fun c => (c, getCell r c))

/-- Column projection `df[cs]`. -/
def selectCols (df : DataFrame) (cs : List String) : DataFrame :=
  ⟨cs, df.rows.map (selectRow cs)⟩

/-- Writing one cell of a row: replace an existing binding in place, or
append a new binding (pandas column assignment, row-wise). -/
def setCell (r : Row) (c : String) (v : Cell) : Row :=
  if r.any (fun pr => decide (pr.1 = c)) then
    r.map (fun pr => if pr.1 = c then (c, v) else pr)
  else r ++ [(c, v)]

/-- Broadcast column assignment `df[c] = v`. -/
def setCol (df : DataFrame) (c : String) (v : Cell) : DataFrame :=
  ⟨if c ∈ df.cols then df.cols else df.cols ++ [c],
   df.rows.map (fun r => setCell r c v)⟩

/-- `pd.concat([A, B], ignore_index=True)`: union of columns, rows of A
then rows of B, columns absent from a side reading null. -/
def concatDF (A B : DataFrame) : DataFrame :=
  ⟨mergeCols A B, A.rows ++ B.rows⟩

/-- Adding every structurally-expected column that is absent, as a null
column (absent bindings already read as null). -/
def ensureCols (df : DataFrame) (cs : List String) : DataFrame :=
  ⟨df.cols ++ cs.filter (fun c => !(df.cols.contains c)), df.rows⟩

/-- Parsing a time-slot label with `pd.to_datetime(format='%H:%M',
errors='coerce')`: minutes since midnight, or `none` for NaT. -/
def parseHM (c : Cell) : Option Nat :=
  match c with
  | Cell.str s =>
    match splitChar (':') s.data with
    | [h, m] =>
      if (decide (h ≠ []) && decide (m ≠ []) && (h ++ m).all (fun d => d.isDigit)) then
        let hv := digitRunVal h
        let mv := digitRunVal m
        if (decide (hv < 24) && decide (mv < 60)) then some (hv * 60 + mv) else none
      else none
    | _ => none
  | _ => none

/-- Sort rank of the epoch column: forecast rows first, realtime rows
second, anything else (NaN under `Series.map`) last. -/
def epochRank (r : Row) : Nat :=
  if getCell r ("边界数据类型") = Cell.str ("日前") then 0
  else if getCell r ("边界数据类型") = Cell.str ("实时") then 1
  else 2

/-- Total boolean order on cells for the date sort key; null (NaN) sorts
last, mirroring `sort_values` with na_position='last'. -/
def cellLe (a b : Cell) : Bool :=
  match a, b with
  | Cell.num x, Cell.num y => decide (x ≤ y)
  | Cell.num _, _ => true
  | Cell.str _, Cell.num _ => false
  | Cell.str x, Cell.str y => decide (x ≤ y)
  | Cell.str _, Cell.null => true
  | Cell.null, Cell.null => true
  | Cell.null, _ => false

/-- Order on parsed time-of-day values; NaT (`none`) sorts last. -/
def optTimeLe (a b : Option Nat) : Bool :=
  match a, b with
  | some x, some y => decide (x ≤ y)
  | some _, none => true
  | none, some _ => false
  | none, none => true

/-- Lexicographic sort key of the unified table: epoch rank, then date,
then parsed time-of-day. -/
def rowLe (a b : Row) : Bool :=
  if epochRank a ≠ epochRank b then decide (epochRank a < epochRank b)
  else if getCell a ("日期") ≠ getCell b ("日期") then
    cellLe (getCell a ("日期")) (getCell b ("日期"))
  else optTimeLe (parseHM (getCell a ("时点"))) (parseHM (getCell b ("时点")))

/-- Stable sort of the unified table by `rowLe`. -/
def sortUnified (df : DataFrame) : DataFrame :=
  ⟨df.cols, df.rows.mergeSort rowLe⟩

/-- Join key columns used throughout the reconciliation. -/
def joinKeyCols : List String := ["日期", "时点"]

/-- Cell broadcast from the extracted online-capacity scalar. -/
def ocCell : Option ℚ → Cell
  | none => Cell.null
  | some q => Cell.num q

/-- Forecast-epoch build (app.py lines 164-196, preprocess_data.py lines
111-144): five successive outer joins onto the load forecast, then the
epoch label and the broadcast online-capacity column. -/
def build_day_ahead (df_load df_renewable df_disclosure df_tie_line df_hydro df_price : DataFrame)
    (online_capacity : Option ℚ) : DataFrame :=
  let m1 := mergeOuter joinKeyCols (selectCols df_load ["日期", "时点", "省调负荷(MW)"])
    (selectCols df_renewable ["日期", "时点", "风电(MW)", "光伏(MW)", "新能源负荷(MW)"])
  let m2 := mergeOuter joinKeyCols m1 (selectCols df_disclosure ["日期", "时点", "非市场化出力(MW)"])
  let m3 := mergeOuter joinKeyCols m2 (selectCols df_tie_line ["日期", "时点", "联络线计划(MW)"])
  let m4 := mergeOuter joinKeyCols m3 (selectCols df_hydro ["日期", "时点", "水电出力(MW)"])
  let m5 := mergeOuter joinKeyCols m4 (selectCols df_price ["日期", "时点", "日前出清价格(元/MWh)"])
  let m6 := setCol m5 ("边界数据类型") (Cell.str ("日前"))
  setCol m6 ("在线机组容量(MW)") (ocCell online_capacity)

/-- Realtime-epoch build (app.py lines 199-213): the actual-telemetry
projection left-joined with the realtime tie-line plan and the realtime
clearing price, then the epoch label. -/
def build_real_time (df_actual df_tie_line_rt df_price : DataFrame) : DataFrame :=
  let base := selectCols df_actual
    ["日期", "时点", "省调负荷(MW)", "风电(MW)", "光伏(MW)", "新能源负荷(MW)", "水电出力(MW)", "非市场化出力(MW)"]
  let m1 := mergeLeft joinKeyCols base (selectCols df_tie_line_rt ["日期", "时点", "联络线计划(MW)"])
  let m2 := mergeLeft joinKeyCols m1 (selectCols df_price ["日期", "时点", "实时出清价格(元/MWh)"])
  setCol m2 ("边界数据类型") (Cell.str ("实时"))

/-- Fixed 15-column schema of the unified table. -/
def unifiedColumns : List String :=
  ["日期", "时点", "边界数据类型", "竞价空间(MW)", "省调负荷(MW)", "风电(MW)", "光伏(MW)",
   "新能源负荷(MW)", "非市场化出力(MW)", "水电出力(MW)", "联络线计划(MW)", "在线机组容量(MW)",
   "日前出清价格(元/MWh)", "实时出清价格(元/MWh)", "负荷率(%)"]

/-- Reconciliation of the normalized sources (app.py lines 216-236):
concatenate the two epochs, complete and reorder the column set, sort. -/
def reconcile (df_load df_renewable df_disclosure df_tie_line df_hydro
    df_actual df_tie_line_rt df_price : DataFrame) (online_capacity : Option ℚ) : DataFrame :=
  let day := build_day_ahead df_load df_renewable df_disclosure df_tie_line df_hydro df_price online_capacity
  let rt := build_real_time df_actual df_tie_line_rt df_price
  let both := concatDF day rt
  let completed := ensureCols both unifiedColumns
  sortUnified (selectCols completed unifiedColumns)

/-- Forecast-epoch partition of a unified table. -/
def forecastRows (df : DataFrame) : List Row :=
  df.rows.filter (fun r => decide (getCell r ("边界数据类型") = Cell.str ("日前")))

/-- Predicate equivalent of the two price stages of
`filter_by_price_range` on one row: an unset bound passes. -/
def pricePass (p : FilterParams) (pc : String) (r : Row) : Bool :=
  (p.min_price.all (fun m => cellPassMin (getCell r pc) m p.include_min_boundary)) &&
  (p.max_price.all (fun m => cellPassMax (getCell r pc) m p.include_max_boundary))

/-- Same price bounds applied to the intraday clearing node price (the
second stage of metric 2). -/
def intradayPass (p : FilterParams) (r : Row) : Bool :=
  pricePass p ("日内出清节点价格") r

/-- Parameter set with only a minimum price bound. -/
def minOnlyParams (m : ℚ) (incl : Bool) : FilterParams :=
  ⟨some m, none, none, none, none, none, none, incl, false⟩

/-- Parameter set with only a maximum price bound. -/
def maxOnlyParams (m : ℚ) (incl : Bool) : FilterParams :=
  ⟨none, some m, none, none, none, none, none, false, incl⟩

/-- Key list of a table on the reconciliation join key. -/
def keyList (df : DataFrame) : List (List Cell) :=
  df.rows.map (keyOf joinKeyCols)

/-- Trading fixture row 1 (company 塔山, forecast price 300, intraday 250). -/
def rT1 : Row :=
  [("公司名称", Cell.str ("塔山")), ("日前出清节点价格", Cell.num 300),
   ("日内出清节点价格", Cell.num 250), ("日前中标出力", Cell.num 150),
   ("省间日前出清电力", Cell.null), ("省间日前出清价格", Cell.num 400),
   ("省间实时出清电力", Cell.num 0), ("省间实时出清价格", Cell.num 410),
   ("省内中长期上网电量", Cell.num 0), ("省内中长期均价", Cell.num 380),
   ("省间中长期上网电量", Cell.null), ("省间中长期均价", Cell.num 390)]

/-- Trading fixture row 2 (intraday price exactly 100). -/
def rT2 : Row :=
  [("公司名称", Cell.str ("塔山")), ("日前出清节点价格", Cell.num 300),
   ("日内出清节点价格", Cell.num 100), ("日前中标出力", Cell.num 150),
   ("省间日前出清电力", Cell.num 0), ("省间日前出清价格", Cell.num 400),
   ("省间实时出清电力", Cell.null), ("省间实时出清价格", Cell.num 410),
   ("省内中长期上网电量", Cell.null), ("省内中长期均价", Cell.num 380),
   ("省间中长期上网电量", Cell.num 0), ("省间中长期均价", Cell.num 390)]

/-- Trading fixture row 3 (forecast price 100, below the test bound). -/
def rT3 : Row :=
  [("公司名称", Cell.str ("塔山")), ("日前出清节点价格", Cell.num 100),
   ("日内出清节点价格", Cell.num 300), ("日前中标出力", Cell.num 150),
   ("省间日前出清电力", Cell.null), ("省间日前出清价格", Cell.num 400),
   ("省间实时出清电力", Cell.num 0), ("省间实时出清价格", Cell.num 410),
   ("省内中长期上网电量", Cell.num 0), ("省内中长期均价", Cell.num 380),
   ("省间中长期上网电量", Cell.null), ("省间中长期均价", Cell.num 390)]

/-- Trading fixture row 4 (null intraday price). -/
def rT4 : Row :=
  [("公司名称", Cell.str ("塔山")), ("日前出清节点价格", Cell.num 300),
   ("日内出清节点价格", Cell.null), ("日前中标出力", Cell.num 150),
   ("省间日前出清电力", Cell.num 0), ("省间日前出清价格", Cell.num 400),
   ("省间实时出清电力", Cell.num 0), ("省间实时出清价格", Cell.num 410),
   ("省内中长期上网电量", Cell.null), ("省内中长期均价", Cell.num 380),
   ("省间中长期上网电量", Cell.num 0), ("省间中长期均价", Cell.num 390)]

/-- Trading fixture table: four quarter-hour rows for company 塔山 whose
day-ahead committed output sums to 600 and whose cross-provincial and
medium/long-term volumes are all null or zero. -/
def dfT : DataFrame :=
  ⟨["公司名称", "日前出清节点价格", "日内出清节点价格", "日前中标出力",
    "省间日前出清电力", "省间日前出清价格", "省间实时出清电力", "省间实时出清价格",
    "省内中长期上网电量", "省内中长期均价", "省间中长期上网电量", "省间中长期均价"],
   [rT1, rT2, rT3, rT4]⟩

/-- Parameters selecting company 塔山 with no price bounds. -/
def pC1 : FilterParams :=
  ⟨none, none, none, none, some ("塔山"), none, none, false, false⟩

/-- Parameters with a strict minimum price of 200. -/
def pT3 : FilterParams :=
  ⟨some 200, none, none, none, none, none, none, false, false⟩

/-- Table without any of the filterable columns. -/
def dfC2 : DataFrame := ⟨["备注"], [[("备注", Cell.str ("x"))]]⟩

/-- Parameters with only a minimum price of 100. -/
def pC2cex : FilterParams :=
  ⟨some 100, none, none, none, none, none, none, false, false⟩

/-- Normalized load-forecast fixture: one row keyed (2026-01-01, 00:15). -/
def tLoadW : DataFrame :=
  ⟨["日期", "时点", "省调负荷(MW)"],
   [[("日期", Cell.str ("2026-01-01")), ("时点", Cell.str ("00:15")), ("省调负荷(MW)", Cell.num 100)]]⟩

/-- Normalized renewable-forecast fixture: one row keyed (2026-01-01, 00:30). -/
def tRenewW : DataFrame :=
  ⟨["日期", "时点", "风电(MW)", "光伏(MW)", "新能源负荷(MW)"],
   [[("日期", Cell.str ("2026-01-01")), ("时点", Cell.str ("00:30")), ("风电(MW)", Cell.num 5)]]⟩

/-- Empty normalized disclosure fixture. -/
def tDiscW : DataFrame := ⟨["日期", "时点", "非市场化出力(MW)"], []⟩

/-- Empty normalized tie-line fixture. -/
def tTieW : DataFrame := ⟨["日期", "时点", "联络线计划(MW)"], []⟩

/-- Empty normalized hydro fixture. -/
def tHydroW : DataFrame := ⟨["日期", "时点", "水电出力(MW)"], []⟩

/-- Empty normalized clearing-price fixture. -/
def tPriceW : DataFrame :=
  ⟨["日期", "时点", "实时出清价格(元/MWh)", "日前出清价格(元/MWh)"], []⟩

/-- Realtime telemetry fixture row. -/
def aActW : Row :=
  [("日期", Cell.str ("2026-01-01")), ("时点", Cell.str ("00:15")), ("省调负荷(MW)", Cell.num 99)]

/-- Normalized actual-telemetry fixture: one row. -/
def tActW : DataFrame :=
  ⟨["日期", "时点", "省调负荷(MW)", "风电(MW)", "光伏(MW)", "新能源负荷(MW)", "水电出力(MW)", "非市场化出力(MW)"],
   [aActW]⟩

/-- Empty normalized load-forecast fixture (for the realtime-only run). -/
def tLoadE : DataFrame := ⟨["日期", "时点", "省调负荷(MW)"], []⟩

/-- Empty normalized renewable fixture (for the realtime-only run). -/
def tRenewE : DataFrame := ⟨["日期", "时点", "风电(MW)", "光伏(MW)", "新能源负荷(MW)"], []⟩

/-- Row that the realtime-only reconciliation run produces from `aActW`. -/
def rRtW : Row :=
  selectRow unifiedColumns (setCell (selectRow
    ["日期", "时点", "省调负荷(MW)", "风电(MW)", "光伏(MW)", "新能源负荷(MW)", "水电出力(MW)", "非市场化出力(MW)"]
    aActW) ("边界数据类型") (Cell.str ("实时")))

theorem exceptOkBind {α β : Type} (x : α) (f : α → Except String β) :
    (Bind.bind (Except.ok x) f) = f x := rfl

theorem exceptErrBind {α β : Type} (s : String) (f : α → Except String β) :
    (Bind.bind (Except.error s : Except String α) f) = Except.error s := rfl

theorem getCell_append (a b : Row) (c : String) :
    getCell (a ++ b) c = if hasCol a c then getCell a c else getCell b c := by
  induction a with
  | nil => simp [hasCol, getCell]
  | cons p t ih =>
    by_cases hp : p.1 = c
    · simp [hasCol, getCell, hp]
    · have hh : hasCol (p :: t) c = hasCol t c := by simp [hasCol, hp]
      rw [List.cons_append]
      simp only [getCell, if_neg hp, ih, hh]

theorem getCell_null_of_not_hasCol {a : Row} {c : String} (h : hasCol a c = false) :
    getCell a c = Cell.null := by
  induction a with
  | nil => rfl
  | cons p t ih =>
    simp only [hasCol, List.any_cons, Bool.or_eq_false_iff,
      decide_eq_false_iff_not] at h
    simp only [getCell, if_neg h.1]
    exact ih (by simpa [hasCol] using h.2)

theorem getCell_append_of_eq {a b : Row} {k : String} (h : getCell a k = getCell b k) :
    getCell (a ++ b) k = getCell a k := by
  rw [getCell_append]
  cases hl : hasCol a k with
  | true => simp
  | false => simp [← h, getCell_null_of_not_hasCol hl]

theorem price_stage_ok {cols : List String} {b : Option ℚ} {incl : Bool} {pc : String}
    {t : Cell → ℚ → Bool → Bool} {rows rows' : List Row}
    (h : price_stage cols b incl pc t rows = Except.ok rows') :
    ∀ r ∈ rows', r ∈ rows ∧ (b.all (fun m => t (getCell r pc) m incl)) = true := by
  cases b with
  | none =>
    simp only [price_stage] at h
    cases h
    intro r hr
    exact ⟨hr, rfl⟩
  | some m =>
    simp only [price_stage] at h
    split at h
    · cases h
      intro r hr
      have hm := List.mem_filter.mp hr
      exact ⟨hm.1, by simpa [Option.all] using hm.2⟩
    · cases h

theorem date_one_ok {cmp : ℚ → ℚ → Bool} {b : Option String} {dc : String}
    {rows rows' : List Row} (h : date_one cmp b dc rows = Except.ok rows') :
    ∀ r ∈ rows', r ∈ rows := by
  cases b with
  | none =>
    simp only [date_one] at h
    cases h
    intro r hr
    exact hr
  | some s =>
    simp only [date_one] at h
    cases hp : parseDateStr s with
    | none => rw [hp] at h; cases h
    | some ts =>
      rw [hp] at h
      cases h
      intro r hr
      exact (List.mem_filter.mp hr).1

theorem date_stage_ok {cols : List String} {sd ed : Option String} {dc : String}
    {rows rows' : List Row} {ws : List String}
    (h : date_stage cols sd ed dc rows = Except.ok (rows', ws)) :
    ∀ r ∈ rows', r ∈ rows := by
  unfold date_stage at h
  split at h
  · cases h1 : date_one (fun ts d => decide (ts ≤ d)) sd dc rows with
    | error s => rw [h1, exceptErrBind] at h; cases h
    | ok rows1 =>
      rw [h1, exceptOkBind] at h
      cases h2 : date_one (fun ts d => decide (d ≤ ts)) ed dc rows1 with
      | error s => rw [h2, exceptErrBind] at h; cases h
      | ok rows2 =>
        rw [h2, exceptOkBind] at h
        cases h
        intro r hr
        exact date_one_ok h1 r (date_one_ok h2 r hr)
  · split at h
    · cases h; intro r hr; exact hr
    · cases h; intro r hr; exact hr

theorem exact_stage_sub {cols : List String} {cn : String} {v : Option String}
    {rows : List Row} : ∀ r ∈ exact_stage cols cn v rows, r ∈ rows := by
  intro r hr
  cases v with
  | none => exact hr
  | some s =>
    simp only [exact_stage] at hr
    split at hr
    · exact (List.mem_filter.mp hr).1
    · exact hr

theorem dimension_stage_sub {cols : List String} {v : Option String}
    {rows : List Row} : ∀ r ∈ (dimension_stage cols v rows).1, r ∈ rows := by
  intro r hr
  cases v with
  | none => exact hr
  | some s =>
    simp only [dimension_stage] at hr
    split at hr
    · exact (List.mem_filter.mp hr).1
    · exact hr

theorem filter_ok_spec {df : DataFrame} {p : FilterParams} {pc dc : String}
    {f : DataFrame} {ws : List String}
    (h : filter_by_price_range df p pc dc = Except.ok (f, ws)) :
    f.cols = df.cols ∧ ∀ r ∈ f.rows, r ∈ df.rows ∧ pricePass p pc r = true := by
  unfold filter_by_price_range at h
  cases h1 : price_stage df.cols p.min_price p.include_min_boundary pc cellPassMin df.rows with
  | error s => rw [h1, exceptErrBind] at h; cases h
  | ok rows1 =>
    rw [h1, exceptOkBind] at h
    cases h2 : price_stage df.cols p.max_price p.include_max_boundary pc cellPassMax rows1 with
    | error s => rw [h2, exceptErrBind] at h; cases h
    | ok rows2 =>
      rw [h2, exceptOkBind] at h
      cases h3 : date_stage df.cols p.start_date p.end_date dc rows2 with
      | error s => rw [h3, exceptErrBind] at h; cases h
      | ok dated =>
        rw [h3, exceptOkBind] at h
        simp only [Except.ok.injEq, Prod.mk.injEq] at h
        obtain ⟨hfe, _⟩ := h
        constructor
        · rw [hfe.symm]
        · intro r hr
          rw [hfe.symm] at hr
          have hr5 := dimension_stage_sub r hr
          have hr4 := exact_stage_sub r hr5
          have hr3 := exact_stage_sub r hr4
          obtain ⟨dr, dws⟩ := dated
          have hr2 := date_stage_ok h3 r hr3
          have hp2 := price_stage_ok h2 r hr2
          have hp1 := price_stage_ok h1 r hp2.1
          exact ⟨hp1.1, by simp only [pricePass, hp1.2, hp2.2, Bool.and_self]⟩

theorem filter_minOnly {df : DataFrame} {m : ℚ} {incl : Bool} {pc : String}
    (hpc : pc ∈ df.cols) :
    filter_by_price_range df (minOnlyParams m incl) pc ("日期") =
      Except.ok (⟨df.cols, df.rows.filter (fun r => cellPassMin (getCell r pc) m incl)⟩, []) := by
  unfold filter_by_price_range minOnlyParams price_stage date_stage date_one exact_stage dimension_stage
  simp only [hpc, if_pos, exceptOkBind]
  split
  · rfl
  · rfl

theorem filter_maxOnly {df : DataFrame} {m : ℚ} {incl : Bool} {pc : String}
    (hpc : pc ∈ df.cols) :
    filter_by_price_range df (maxOnlyParams m incl) pc ("日期") =
      Except.ok (⟨df.cols, df.rows.filter (fun r => cellPassMax (getCell r pc) m incl)⟩, []) := by
  unfold filter_by_price_range maxOnlyParams price_stage date_stage date_one exact_stage dimension_stage
  simp only [hpc, if_pos, exceptOkBind]
  split
  · rfl
  · rfl

/-! ## Claim theorems -/

/-- C8: the derived unit-group is determined by the number parsed from
the unit name: 1 or 3 map to 机组1&3组, 2 or 4 map to 机组2&4组, any
other parsed number maps to 其他机组, and a null name or a name with no
digit maps to 未知; in particular a name whose parsed number is 3 maps
to the same group as one whose parsed number is 1, and a digit-free name
maps to 未知. -/
theorem C8_unit_dimension :
    (determine_dimension none = "未知") ∧
    (∀ s : String, searchFirstNumber s = none → determine_dimension (some s) = "未知") ∧
    (∀ (s : String) (n : Nat), searchFirstNumber s = some n →
      (((n = 1 ∨ n = 3) → determine_dimension (some s) = "机组1&3组") ∧
       ((n = 2 ∨ n = 4) → determine_dimension (some s) = "机组2&4组") ∧
       ((n ≠ 1 ∧ n ≠ 2 ∧ n ≠ 3 ∧ n ≠ 4) → determine_dimension (some s) = "其他机组"))) ∧
    determine_dimension (some ("机组3号")) = determine_dimension (some ("机组1号")) ∧
    determine_dimension (some ("机组甲")) = "未知" := by
  refine ⟨rfl, ?_, ?_, by decide, by decide⟩
  · intro s h
    simp [determine_dimension, h]
  · intro s n h
    refine ⟨?_, ?_, ?_⟩
    · intro hn
      simp [determine_dimension, h, hn]
    · intro hn
      have hn13 : ¬ (n = 1 ∨ n = 3) := by omega
      simp [determine_dimension, h, hn13, hn]
    · intro hn
      have hn13 : ¬ (n = 1 ∨ n = 3) := by omega
      have hn24 : ¬ (n = 2 ∨ n = 4) := by omega
      simp [determine_dimension, h, hn13, hn24]

/-- C8 witness: the name 机组3号 parses to 3 and lands in group 机组1&3组
by applying the claim theorem at that concrete input. -/
theorem C8_unit_dimension_witness :
    searchFirstNumber ("机组3号") = some 3 ∧
    determine_dimension (some ("机组3号")) = "机组1&3组" :=
  ⟨by decide, (C8_unit_dimension.2.2.1 ("机组3号") 3 (by decide)).1 (Or.inr rfl)⟩

/-- C2 counterexample: on a table without the price column, the price
filter with a minimum bound raises a `KeyError` instead of being a no-op
with a warning, falsifying the claim that a filter on an absent column
never raises. -/
theorem C2_counterexample :
    filter_by_price_range dfC2 pC2cex ("省间日前出清价格") ("日期") =
      Except.error (keyError ("省间日前出清价格")) := by
  rfl

/-- C2 (amended): a date, company, unit or unit-group filter on an
absent column is a no-op (the date and unit-group cases surface a
warning; the company and unit cases are silent), but the price filter on
an absent price column raises a `KeyError` as soon as a bound is set. -/
theorem C2_amended_absent_column_filters (df : DataFrame) (sd ed c u d : String)
    (i1 i2 : Bool) (pc : String)
    (hdc : ¬ "日期" ∈ df.cols) (hco : ¬ "公司名称" ∈ df.cols)
    (hun : ¬ "机组名称" ∈ df.cols) (hdm : ¬ "机组维度" ∈ df.cols)
    (hpc : ¬ pc ∈ df.cols) :
    filter_by_price_range df ⟨none, none, some sd, some ed, some c, some u, some d, i1, i2⟩
        pc ("日期") = Except.ok (df, [dateWarning ("日期"), dimensionWarning]) ∧
    ∀ mn mx : Option ℚ, (mn ≠ none ∨ mx ≠ none) →
      filter_by_price_range df ⟨mn, mx, some sd, some ed, some c, some u, some d, i1, i2⟩
        pc ("日期") = Except.error (keyError pc) := by
  constructor
  · unfold filter_by_price_range price_stage date_stage exact_stage dimension_stage
    simp [hdc, hco, hun, hdm, exceptOkBind]
  · intro mn mx hset
    cases mn with
    | some m =>
      unfold filter_by_price_range price_stage
      simp [hpc, exceptErrBind]
    | none =>
      cases mx with
      | none =>
        rcases hset with h | h
        · exact absurd rfl h
        · exact absurd rfl h
      | some m =>
        unfold filter_by_price_range price_stage
        simp [hpc, exceptOkBind, exceptErrBind]

/-- C2 witness: the amended claim applied to the concrete fixture table
that has none of the filterable columns. -/
theorem C2_amended_witness :
    (¬ "日期" ∈ dfC2.cols) ∧
    (filter_by_price_range dfC2
        ⟨none, none, some ("2026-01-01"), some ("2026-01-02"), some ("公司A"),
         some ("1号机组"), some ("机组1&3组"), false, false⟩
        ("省间日前出清价格") ("日期")
      = Except.ok (dfC2, [dateWarning ("日期"), dimensionWarning]) ∧
     ∀ mn mx : Option ℚ, (mn ≠ none ∨ mx ≠ none) →
      filter_by_price_range dfC2
        ⟨mn, mx, some ("2026-01-01"), some ("2026-01-02"), some ("公司A"),
         some ("1号机组"), some ("机组1&3组"), false, false⟩
        ("省间日前出清价格") ("日期")
      = Except.error (keyError ("省间日前出清价格"))) :=
  ⟨by decide,
   C2_amended_absent_column_filters dfC2 ("2026-01-01") ("2026-01-02") ("公司A")
     ("1号机组") ("机组1&3组") false false ("省间日前出清价格")
     (by decide) (by decide) (by decide) (by decide) (by decide)⟩

/-- C4: a row whose price cell equals the minimum bound exactly is
excluded by the strict filter and included by the inclusive one, the
maximum bound behaves symmetrically, and a row with a null price cell
fails the price filter whenever a bound is set. -/
theorem C4_price_boundary (df : DataFrame) (r : Row) (pc : String) (m : ℚ)
    (hpc : pc ∈ df.cols) (hr : r ∈ df.rows) :
    (getCell r pc = Cell.num m →
      (∀ f ws, filter_by_price_range df (minOnlyParams m false) pc ("日期") = Except.ok (f, ws) →
        r ∉ f.rows) ∧
      (∀ f ws, filter_by_price_range df (minOnlyParams m true) pc ("日期") = Except.ok (f, ws) →
        r ∈ f.rows) ∧
      (∀ f ws, filter_by_price_range df (maxOnlyParams m false) pc ("日期") = Except.ok (f, ws) →
        r ∉ f.rows) ∧
      (∀ f ws, filter_by_price_range df (maxOnlyParams m true) pc ("日期") = Except.ok (f, ws) →
        r ∈ f.rows)) ∧
    (getCell r pc = Cell.null →
      ∀ p : FilterParams, (p.min_price ≠ none ∨ p.max_price ≠ none) →
        ∀ f ws, filter_by_price_range df p pc ("日期") = Except.ok (f, ws) → r ∉ f.rows) := by
  constructor
  · intro hv
    refine ⟨?_, ?_, ?_, ?_⟩
    · intro f ws hfo hmem
      have hp := ((filter_ok_spec hfo).2 r hmem).2
      simp [pricePass, minOnlyParams, Option.all, cellPassMin, hv] at hp
    · intro f ws hfo
      rw [filter_minOnly hpc] at hfo
      simp only [Except.ok.injEq, Prod.mk.injEq] at hfo
      rw [← hfo.1]
      exact List.mem_filter.mpr ⟨hr, by simp [cellPassMin, hv]⟩
    · intro f ws hfo hmem
      have hp := ((filter_ok_spec hfo).2 r hmem).2
      simp [pricePass, maxOnlyParams, Option.all, cellPassMax, hv] at hp
    · intro f ws hfo
      rw [filter_maxOnly hpc] at hfo
      simp only [Except.ok.injEq, Prod.mk.injEq] at hfo
      rw [← hfo.1]
      exact List.mem_filter.mpr ⟨hr, by simp [cellPassMax, hv]⟩
  · intro hv p hset f ws hfo hmem
    have hp := ((filter_ok_spec hfo).2 r hmem).2
    rcases hset with hset | hset
    · cases hmn : p.min_price with
      | none => exact hset hmn
      | some m0 => simp [pricePass, Option.all, hmn, hv, cellPassMin] at hp
    · cases hmx : p.max_price with
      | none => exact hset hmx
      | some m0 => simp [pricePass, Option.all, hmx, hv, cellPassMax] at hp

/-- C4 witness: the claim theorem applied to fixture row `rT2`, whose
intraday price is exactly 100, in the fixture table. -/
theorem C4_price_boundary_witness :
    ("日内出清节点价格" ∈ dfT.cols) ∧ (rT2 ∈ dfT.rows) ∧
    ((getCell rT2 ("日内出清节点价格") = Cell.num 100 →
      (∀ f ws, filter_by_price_range dfT (minOnlyParams 100 false) ("日内出清节点价格") ("日期")
          = Except.ok (f, ws) → rT2 ∉ f.rows) ∧
      (∀ f ws, filter_by_price_range dfT (minOnlyParams 100 true) ("日内出清节点价格") ("日期")
          = Except.ok (f, ws) → rT2 ∈ f.rows) ∧
      (∀ f ws, filter_by_price_range dfT (maxOnlyParams 100 false) ("日内出清节点价格") ("日期")
          = Except.ok (f, ws) → rT2 ∉ f.rows) ∧
      (∀ f ws, filter_by_price_range dfT (maxOnlyParams 100 true) ("日内出清节点价格") ("日期")
          = Except.ok (f, ws) → rT2 ∈ f.rows)) ∧
     (getCell rT2 ("日内出清节点价格") = Cell.null →
      ∀ p : FilterParams, (p.min_price ≠ none ∨ p.max_price ≠ none) →
        ∀ f ws, filter_by_price_range dfT p ("日内出清节点价格") ("日期") = Except.ok (f, ws) →
          rT2 ∉ f.rows)) :=
  ⟨by decide, by decide,
   C4_price_boundary dfT rT2 ("日内出清节点价格") 100 (by decide) (by decide)⟩

/-- C3: realtime hours equal one quarter of the number of rows that pass
the metric-1 filter (forecast clearing node price) and additionally
satisfy the same bounds with the same inclusivity flags on the intraday
clearing node price, provided the dataset carries the intraday column. -/
theorem C3_realtime_two_stage (df : DataFrame) (p : FilterParams)
    (f : DataFrame) (ws : List String)
    (hintra : "日内出清节点价格" ∈ df.cols)
    (hf : filter_by_price_range df p ("日前出清节点价格") ("日期") = Except.ok (f, ws)) :
    calculate_realtime_hours df p =
      Except.ok (((f.rows.filter (fun r => intradayPass p r)).length : ℚ) / 4) := by
  have hcols := (filter_ok_spec hf).1
  unfold calculate_realtime_hours
  rw [hf, exceptOkBind]
  dsimp only
  rw [hcols, if_pos hintra]
  cases hmin : p.min_price with
  | none =>
    cases hmax : p.max_price with
    | none => simp [intradayPass, pricePass, hmin, hmax, Option.all]
    | some M => simp [intradayPass, pricePass, hmin, hmax, Option.all]
  | some m =>
    cases hmax : p.max_price with
    | none => simp [intradayPass, pricePass, hmin, hmax, Option.all]
    | some M =>
      simp only [intradayPass, pricePass, hmin, hmax, Option.all, List.filter_filter]
      rw [List.filter_congr (fun r _ => by rw [Bool.and_comm])]

/-- C3 witness: the claim theorem applied to the fixture table with a
strict minimum price bound of 200. -/
theorem C3_realtime_two_stage_witness :
    ("日内出清节点价格" ∈ dfT.cols) ∧
    calculate_realtime_hours dfT pT3 =
      Except.ok ((((⟨dfT.cols, [rT1, rT2, rT4]⟩ : DataFrame).rows.filter
        (fun r => intradayPass pT3 r)).length : ℚ) / 4) :=
  ⟨by decide, C3_realtime_two_stage dfT pT3 ⟨dfT.cols, [rT1, rT2, rT4]⟩ [] (by decide) rfl⟩

/-- C10: for identical arguments, realtime hours (metric 2) never exceed
forecast hours (metric 1), because the second-stage intraday filter can
only remove rows from the first-stage result. -/
theorem C10_realtime_le_forward (df : DataFrame) (p : FilterParams) (x y : ℚ)
    (h1 : calculate_daily_forward_hours df p = Except.ok x)
    (h2 : calculate_realtime_hours df p = Except.ok y) : y ≤ x := by
  unfold calculate_daily_forward_hours at h1
  unfold calculate_realtime_hours at h2
  cases hf : filter_by_price_range df p ("日前出清节点价格") ("日期") with
  | error s => rw [hf, exceptErrBind] at h1; cases h1
  | ok fw =>
    rw [hf, exceptOkBind] at h1 h2
    simp only [Except.ok.injEq] at h1 h2
    rw [← h1, ← h2]
    have hle : (if "日内出清节点价格" ∈ fw.1.cols then
        (match p.max_price with
          | none =>
            (match p.min_price with
              | none => fw.1.rows
              | some m => fw.1.rows.filter (fun r =>
                  cellPassMin (getCell r ("日内出清节点价格")) m p.include_min_boundary))
          | some m =>
            (match p.min_price with
              | none => fw.1.rows
              | some m2 => fw.1.rows.filter (fun r =>
                  cellPassMin (getCell r ("日内出清节点价格")) m2 p.include_min_boundary)).filter
              (fun r => cellPassMax (getCell r ("日内出清节点价格")) m p.include_max_boundary))
      else fw.1.rows).length ≤ fw.1.rows.length := by
      split
      · cases hmin : p.min_price with
        | none =>
          cases hmax : p.max_price with
          | none => exact le_refl _
          | some M => exact List.length_filter_le _ _
        | some m =>
          cases hmax : p.max_price with
          | none => exact List.length_filter_le _ _
          | some M =>
            exact le_trans (List.length_filter_le _ _) (List.length_filter_le _ _)
      · exact le_refl _
    exact div_le_div_of_nonneg_right (by exact_mod_cast hle) (by norm_num)

/-- C10 witness: metric 1 and metric 2 evaluated on the fixture table
with a strict minimum bound of 200 give 3/4 and 1/4 hours, to which the
claim theorem applies. -/
theorem C10_realtime_le_forward_witness :
    calculate_daily_forward_hours dfT pT3 = Except.ok (3/4) ∧
    calculate_realtime_hours dfT pT3 = Except.ok (1/4) ∧ ((1:ℚ)/4 ≤ (3:ℚ)/4) := by
  have h1 : calculate_daily_forward_hours dfT pT3 = Except.ok (3/4) := by rfl
  have h2 : calculate_realtime_hours dfT pT3 = Except.ok (1/4) := by rfl
  exact ⟨h1, h2, C10_realtime_le_forward dfT pT3 (3/4) (1/4) h1 h2⟩

/-- C5: when every contributing volume (cross-provincial day-ahead and
real-time cleared power for metric 5; intra- and cross-provincial MLT
contracted volume for metric 10) is null or zero, both weighted averages
return exactly 0.0 and no division error occurs; nulls count as zero on
both sides of the quotient. -/
theorem C5_weighted_avg_zero (df : DataFrame) (p : FilterParams) (pc : String)
    (f : DataFrame) (ws : List String)
    (hf : filter_by_price_range df p pc ("日期") = Except.ok (f, ws))
    (hc1 : "省间日前出清电力" ∈ df.cols) (hc2 : "省间日前出清价格" ∈ df.cols)
    (hc3 : "省间实时出清电力" ∈ df.cols) (hc4 : "省间实时出清价格" ∈ df.cols)
    (hd1 : "省内中长期上网电量" ∈ df.cols) (hd2 : "省内中长期均价" ∈ df.cols)
    (hd3 : "省间中长期上网电量" ∈ df.cols) (hd4 : "省间中长期均价" ∈ df.cols)
    (hz : ∀ r ∈ df.rows,
      numVal (getCell r ("省间日前出清电力")) = 0 ∧
      numVal (getCell r ("省间实时出清电力")) = 0 ∧
      numVal (getCell r ("省内中长期上网电量")) = 0 ∧
      numVal (getCell r ("省间中长期上网电量")) = 0) :
    calculate_inter_provincial_avg_price df p pc = Except.ok 0 ∧
    calculate_medium_long_weighted_avg_price df p pc = Except.ok 0 := by
  obtain ⟨hcols, hmem⟩ := filter_ok_spec hf
  constructor
  · unfold calculate_inter_provincial_avg_price
    rw [hf, exceptOkBind]
    dsimp only
    rw [hcols, if_pos hc1, if_pos hc2, if_pos hc3, if_pos hc4]
    have hden : (f.rows.map (fun r =>
        numVal (getCell r ("省间实时出清电力")) + numVal (getCell r ("省间日前出清电力")))).sum = 0 := by
      apply List.sum_eq_zero
      intro x hx
      obtain ⟨r, hr, rfl⟩ := List.mem_map.mp hx
      obtain ⟨h1, h2, _, _⟩ := hz r (hmem r hr).1
      rw [h1, h2, add_zero]
    rw [if_pos hden]
  · unfold calculate_medium_long_weighted_avg_price
    rw [hf, exceptOkBind]
    dsimp only
    rw [hcols, if_pos hd1, if_pos hd2, if_pos hd3, if_pos hd4]
    have hden : (f.rows.map (fun r =>
        numVal (getCell r ("省内中长期上网电量")) + numVal (getCell r ("省间中长期上网电量")))).sum = 0 := by
      apply List.sum_eq_zero
      intro x hx
      obtain ⟨r, hr, rfl⟩ := List.mem_map.mp hx
      obtain ⟨_, _, h3, h4⟩ := hz r (hmem r hr).1
      rw [h3, h4, add_zero]
    rw [if_pos hden]

/-- C5 witness: the claim theorem applied to the fixture table, whose
volume columns are all null or zero. -/
theorem C5_weighted_avg_zero_witness :
    (∀ r ∈ dfT.rows,
      numVal (getCell r ("省间日前出清电力")) = 0 ∧
      numVal (getCell r ("省间实时出清电力")) = 0 ∧
      numVal (getCell r ("省内中长期上网电量")) = 0 ∧
      numVal (getCell r ("省间中长期上网电量")) = 0) ∧
    (calculate_inter_provincial_avg_price dfT pT3 ("日前出清节点价格") = Except.ok 0 ∧
     calculate_medium_long_weighted_avg_price dfT pT3 ("日前出清节点价格") = Except.ok 0) :=
  ⟨by decide,
   C5_weighted_avg_zero dfT pT3 ("日前出清节点价格") ⟨dfT.cols, [rT1, rT2, rT4]⟩ [] rfl
     (by decide) (by decide) (by decide) (by decide)
     (by decide) (by decide) (by decide) (by decide) (by decide)⟩

theorem factor_tashan : get_power_conversion_factor (some ("塔山")) = 660/600 := by rfl

/-- C1 counterexample: on a filtered set of exactly four quarter-hour
rows for company 塔山 whose committed-output column sums to 600, metric
7 evaluates to 165.0 = (600/4) x (660/600) / 1, not to 660.0 as the
claim states. -/
theorem C1_counterexample :
    calculate_daily_forward_power dfT pC1 = Except.ok 165 ∧
    calculate_daily_forward_power dfT pC1 ≠ Except.ok 660 := by
  have h : calculate_daily_forward_power dfT pC1 = Except.ok 165 := by
    unfold calculate_daily_forward_power
    rw [show filter_by_price_range dfT pC1 ("日前出清节点价格") ("日期")
        = Except.ok (dfT, []) from rfl, exceptOkBind]
    dsimp only
    rw [show (dfT.rows.isEmpty : Bool) = false from rfl]
    simp only [Bool.false_eq_true, if_false]
    rw [show dfT.rows.length = 4 from rfl]
    rw [if_neg (by norm_num)]
    rw [if_pos (by decide : "日前中标出力" ∈ dfT.cols)]
    rw [show sumNum dfT.rows ("日前中标出力") = 600 by
      simp [sumNum, dfT, rT1, rT2, rT3, rT4, getCell, List.lookup, numVal]
      norm_num]
    rw [show pC1.company_name = some ("塔山") from rfl, factor_tashan]
    norm_num
  refine ⟨h, ?_⟩
  rw [h]
  simp only [ne_eq, Except.ok.injEq]
  norm_num

/-- C1 (amended): on a filtered set of exactly four quarter-hour rows
for company 塔山 whose day-ahead committed-output column sums to 600,
metric 7 returns 165.0, i.e. (600/4) x conversion_factor(塔山) / hours
with conversion_factor(塔山) = 660/600 = 1.1 and hours = 1. -/
theorem C1_amended_forward_power (df : DataFrame) (p : FilterParams)
    (f : DataFrame) (ws : List String)
    (hcompany : p.company_name = some ("塔山"))
    (hf : filter_by_price_range df p ("日前出清节点价格") ("日期") = Except.ok (f, ws))
    (hcol : "日前中标出力" ∈ df.cols)
    (hlen : f.rows.length = 4)
    (hsum : sumNum f.rows ("日前中标出力") = 600) :
    calculate_daily_forward_power df p = Except.ok 165 := by
  have hcols := (filter_ok_spec hf).1
  unfold calculate_daily_forward_power
  rw [hf, exceptOkBind]
  dsimp only
  have hne : f.rows.isEmpty = false := by
    cases hrows : f.rows with
    | nil => rw [hrows] at hlen; simp at hlen
    | cons a t => simp [hrows]
  rw [hne]
  simp only [Bool.false_eq_true, if_false]
  rw [hlen, if_neg (by norm_num), hcols, if_pos hcol, hsum, hcompany, factor_tashan]
  norm_num

/-- C1 witness: the amended claim applied to the concrete fixture. -/
theorem C1_amended_forward_power_witness :
    (sumNum dfT.rows ("日前中标出力") = 600) ∧ (dfT.rows.length = 4) ∧
    calculate_daily_forward_power dfT pC1 = Except.ok 165 := by
  have hs : sumNum dfT.rows ("日前中标出力") = 600 := by
    simp [sumNum, dfT, rT1, rT2, rT3, rT4, getCell, List.lookup, numVal]
    norm_num
  exact ⟨hs, rfl,
    C1_amended_forward_power dfT pC1 dfT [] rfl rfl (by decide) rfl hs⟩

theorem getCell_selectRow_mem {cs : List String} {c : String} (r : Row) (hc : c ∈ cs) :
    getCell (selectRow cs r) c = getCell r c := by
  induction cs with
  | nil => cases hc
  | cons c0 t ih =>
    by_cases he : c0 = c
    · simp [selectRow, getCell, he]
    · have hct : c ∈ t := by
        cases hc with
        | head => exact absurd rfl he
        | tail _ h => exact h
      simpa [selectRow, getCell, he] using ih hct

theorem getCell_selectRow_not_mem {cs : List String} {c : String} (r : Row) (hc : ¬ c ∈ cs) :
    getCell (selectRow cs r) c = Cell.null := by
  induction cs with
  | nil => rfl
  | cons c0 t ih =>
    have he : ¬ c0 = c := fun h => hc (h ▸ List.mem_cons_self c0 t)
    have hct : ¬ c ∈ t := fun h => hc (List.mem_cons_of_mem c0 h)
    simpa [selectRow, getCell, he] using ih hct

theorem getCell_append_null {a b : Row} {c : String}
    (ha : getCell a c = Cell.null) (hb : getCell b c = Cell.null) :
    getCell (a ++ b) c = Cell.null := by
  rw [getCell_append]
  cases hl : hasCol a c with
  | true => simpa using ha
  | false => simpa using hb

theorem getCell_map_replace_self (r : Row) (c : String) (v : Cell)
    (hany : r.any (fun pr => decide (pr.1 = c)) = true) :
    getCell (r.map (fun pr => if pr.1 = c then (c, v) else pr)) c = v := by
  induction r with
  | nil => cases hany
  | cons p t ih =>
    by_cases hp : p.1 = c
    · simp [getCell, hp]
    · have ht : t.any (fun pr => decide (pr.1 = c)) = true := by
        simpa [List.any_cons, hp] using hany
      simpa [getCell, hp] using ih ht

theorem getCell_map_replace_ne (r : Row) {c k : String} (v : Cell) (h : ¬ k = c) :
    getCell (r.map (fun pr => if pr.1 = c then (c, v) else pr)) k = getCell r k := by
  induction r with
  | nil => rfl
  | cons p t ih =>
    by_cases hp : p.1 = c
    · have hck : ¬ c = k := fun he => h he.symm
      have hpk : ¬ p.1 = k := by rw [hp]; exact hck
      simp [getCell, hp, hck, hpk, ih]
    · by_cases hk : p.1 = k
      · simp [getCell, hp, hk, h]
      · simp [getCell, hp, hk, ih]

theorem getCell_setCell_self (r : Row) (c : String) (v : Cell) :
    getCell (setCell r c v) c = v := by
  unfold setCell
  split
  · exact getCell_map_replace_self r c v (by assumption)
  · rename_i hany
    have hnone : hasCol r c = false := Bool.eq_false_iff.mpr hany
    rw [getCell_append]
    simp [hnone, getCell]

theorem getCell_setCell_ne (r : Row) {c k : String} (v : Cell) (h : ¬ k = c) :
    getCell (setCell r c v) k = getCell r k := by
  unfold setCell
  split
  · exact getCell_map_replace_ne r v h
  · rw [getCell_append]
    cases hl : hasCol r k with
    | true => simp
    | false =>
      have hck : ¬ c = k := fun he => h he.symm
      simp [getCell, hck, getCell_null_of_not_hasCol hl]

/-! ## Lemmas about the outer/left joins on the (日期, 时点) key -/

theorem keyOf_append_of_match {ks : List String} {a b : Row}
    (h : matchKey ks a b = true) : keyOf ks (a ++ b) = keyOf ks a := by
  have he : keyOf ks a = keyOf ks b := of_decide_eq_true h
  unfold keyOf at he ⊢
  refine List.map_congr_left ?_
  intro k hk
  exact getCell_append_of_eq (List.map_inj_left.mp he k hk)

theorem matchRows_keyOf {ks : List String} {B : List Row} {a r : Row}
    (hr : r ∈ matchRows ks B a) : keyOf ks r = keyOf ks a := by
  simp only [matchRows] at hr
  split at hr
  · simp at hr
    subst hr
    rfl
  · obtain ⟨b, hb, rfl⟩ := List.mem_map.mp hr
    exact keyOf_append_of_match (List.mem_filter.mp hb).2

theorem matchRows_cases {ks : List String} {B : List Row} {a r : Row}
    (hr : r ∈ matchRows ks B a) : r = a ∨ ∃ b ∈ B, r = a ++ b := by
  simp only [matchRows] at hr
  split at hr
  · simp at hr
    exact Or.inl hr
  · obtain ⟨b, hb, rfl⟩ := List.mem_map.mp hr
    exact Or.inr ⟨b, (List.mem_filter.mp hb).1, rfl⟩

theorem matchRows_ne_nil {ks : List String} {B : List Row} {a : Row} :
    matchRows ks B a ≠ [] := by
  simp only [matchRows]
  split
  · simp
  · rename_i hne
    rw [List.isEmpty_iff] at hne
    simpa using hne

theorem filter_match_le_one {ks : List String} {B : List Row}
    (hB : (B.map (keyOf ks)).Nodup) (a : Row) :
    (B.filter (fun b => matchKey ks a b)).length ≤ 1 := by
  induction B with
  | nil => simp
  | cons b t ih =>
    rw [List.map_cons, List.nodup_cons] at hB
    by_cases hm : matchKey ks a b = true
    · rw [List.filter_cons_of_pos hm]
      have hnil : t.filter (fun b2 => matchKey ks a b2) = [] := by
        rw [List.filter_eq_nil_iff]
        intro b2 hb2 hmb2
        have e1 : keyOf ks a = keyOf ks b := of_decide_eq_true hm
        have e2 : keyOf ks a = keyOf ks b2 := of_decide_eq_true hmb2
        refine hB.1 ?_
        rw [e1.symm.trans e2]
        exact List.mem_map_of_mem _ hb2
      rw [hnil]
      simp
    · rw [List.filter_cons_of_neg hm]
      exact ih hB.2

theorem matchRows_map_keyOf {ks : List String} {B : List Row}
    (hB : (B.map (keyOf ks)).Nodup) (a : Row) :
    (matchRows ks B a).map (keyOf ks) = [keyOf ks a] := by
  cases hc : B.filter (fun b => matchKey ks a b) with
  | nil =>
    unfold matchRows
    rw [hc]
    simp
  | cons b t =>
    have hle := filter_match_le_one hB a
    rw [hc] at hle
    have ht : t = [] := by
      cases t with
      | nil => rfl
      | cons x xs => simp at hle
    subst ht
    unfold matchRows
    rw [hc]
    have hm : matchKey ks a b = true := by
      have hb : b ∈ B.filter (fun b2 => matchKey ks a b2) := by
        rw [hc]
        exact List.mem_cons_self b []
      exact (List.mem_filter.mp hb).2
    simp [keyOf_append_of_match hm]

theorem flatMap_matchRows_keys {ks : List String} {B : List Row}
    (hB : (B.map (keyOf ks)).Nodup) (A : List Row) :
    ((A.flatMap (matchRows ks B)).map (keyOf ks)) = A.map (keyOf ks) := by
  induction A with
  | nil => rfl
  | cons a t ih =>
    rw [List.flatMap_cons, List.map_append, matchRows_map_keyOf hB a, ih]
    rfl

theorem mergeOuter_keys {ks : List String} {A B : DataFrame}
    (hB : (B.rows.map (keyOf ks)).Nodup) :
    (mergeOuter ks A B).rows.map (keyOf ks) =
      A.rows.map (keyOf ks) ++
      (B.rows.filter (fun b => !(A.rows.any (fun a => matchKey ks a b)))).map (keyOf ks) := by
  unfold mergeOuter
  rw [List.map_append, flatMap_matchRows_keys hB]

theorem mergeOuter_spec {ks : List String} {A B : DataFrame}
    (hA : (A.rows.map (keyOf ks)).Nodup) (hB : (B.rows.map (keyOf ks)).Nodup) :
    ((mergeOuter ks A B).rows.map (keyOf ks)).Nodup ∧
    ((mergeOuter ks A B).rows.map (keyOf ks)).toFinset =
      (A.rows.map (keyOf ks)).toFinset ∪ (B.rows.map (keyOf ks)).toFinset := by
  rw [mergeOuter_keys hB]
  have hsubl : ((B.rows.filter (fun b => !(A.rows.any (fun a => matchKey ks a b)))).map (keyOf ks)).Sublist
      (B.rows.map (keyOf ks)) :=
    List.Sublist.map _ (List.filter_sublist _)
  constructor
  · rw [List.nodup_append]
    refine ⟨hA, List.Nodup.sublist hsubl hB, ?_⟩
    rw [List.disjoint_left]
    intro k hkA hkF
    obtain ⟨a, ha, rfl⟩ := List.mem_map.mp hkA
    obtain ⟨b, hb, he⟩ := List.mem_map.mp hkF
    have hb2 := List.mem_filter.mp hb
    have hmb : matchKey ks a b = true := by
      unfold matchKey
      rw [he]
      simp
    have hfalse : A.rows.any (fun a2 => matchKey ks a2 b) = false := by
      simpa using hb2.2
    have htrue : A.rows.any (fun a2 => matchKey ks a2 b) = true :=
      List.any_eq_true.mpr ⟨a, ha, hmb⟩
    rw [hfalse] at htrue
    cases htrue
  · rw [List.toFinset_append]
    ext k
    simp only [Finset.mem_union, List.mem_toFinset]
    constructor
    · rintro (hk | hk)
      · exact Or.inl hk
      · exact Or.inr (hsubl.mem hk)
    · rintro (hk | hk)
      · exact Or.inl hk
      · obtain ⟨b, hb, rfl⟩ := List.mem_map.mp hk
        by_cases hmatch : A.rows.any (fun a => matchKey ks a b) = true
        · rw [List.any_eq_true] at hmatch
          obtain ⟨a, ha, hma⟩ := hmatch
          refine Or.inl ?_
          rw [← of_decide_eq_true hma]
          exact List.mem_map_of_mem _ ha
        · refine Or.inr ?_
          refine List.mem_map_of_mem _ ?_
          rw [List.mem_filter]
          exact ⟨hb, by simpa using hmatch⟩

theorem mergeOuter_keyList (A B : DataFrame)
    (hA : (keyList A).Nodup) (hB : (keyList B).Nodup) :
    (keyList (mergeOuter joinKeyCols A B)).Nodup ∧
    (keyList (mergeOuter joinKeyCols A B)).toFinset =
      (keyList A).toFinset ∪ (keyList B).toFinset := by
  unfold keyList at *
  exact mergeOuter_spec hA hB

theorem keyList_selectCols {df : DataFrame} {cs : List String}
    (h1 : "日期" ∈ cs) (h2 : "时点" ∈ cs) :
    keyList (selectCols df cs) = keyList df := by
  unfold keyList selectCols
  dsimp only
  rw [List.map_map]
  refine List.map_congr_left ?_
  intro r _
  simp [keyOf, joinKeyCols, Function.comp,
    getCell_selectRow_mem r h1, getCell_selectRow_mem r h2]

theorem keyList_setCol {df : DataFrame} {c : String} {v : Cell}
    (h1 : ¬ "日期" = c) (h2 : ¬ "时点" = c) :
    keyList (setCol df c v) = keyList df := by
  unfold keyList setCol
  dsimp only
  rw [List.map_map]
  refine List.map_congr_left ?_
  intro r _
  simp [keyOf, joinKeyCols, Function.comp,
    getCell_setCell_ne r v h1, getCell_setCell_ne r v h2]

theorem keyOf_selectRow_unified (r : Row) :
    keyOf joinKeyCols (selectRow unifiedColumns r) = keyOf joinKeyCols r := by
  simp [keyOf, joinKeyCols,
    getCell_selectRow_mem r (show "日期" ∈ unifiedColumns by decide),
    getCell_selectRow_mem r (show "时点" ∈ unifiedColumns by decide)]

theorem build_day_ahead_keys (t1 t2 t3 t4 t5 t6 : DataFrame) (oc : Option ℚ)
    (h1 : (keyList t1).Nodup) (h2 : (keyList t2).Nodup) (h3 : (keyList t3).Nodup)
    (h4 : (keyList t4).Nodup) (h5 : (keyList t5).Nodup) (h6 : (keyList t6).Nodup) :
    (keyList (build_day_ahead t1 t2 t3 t4 t5 t6 oc)).Nodup ∧
    (keyList (build_day_ahead t1 t2 t3 t4 t5 t6 oc)).toFinset =
      (keyList t1).toFinset ∪ (keyList t2).toFinset ∪ (keyList t3).toFinset ∪
      (keyList t4).toFinset ∪ (keyList t5).toFinset ∪ (keyList t6).toFinset := by
  have e1 : keyList (selectCols t1 ["日期", "时点", "省调负荷(MW)"]) = keyList t1 :=
    keyList_selectCols (by decide) (by decide)
  have e2 : keyList (selectCols t2 ["日期", "时点", "风电(MW)", "光伏(MW)", "新能源负荷(MW)"]) = keyList t2 :=
    keyList_selectCols (by decide) (by decide)
  have e3 : keyList (selectCols t3 ["日期", "时点", "非市场化出力(MW)"]) = keyList t3 :=
    keyList_selectCols (by decide) (by decide)
  have e4 : keyList (selectCols t4 ["日期", "时点", "联络线计划(MW)"]) = keyList t4 :=
    keyList_selectCols (by decide) (by decide)
  have e5 : keyList (selectCols t5 ["日期", "时点", "水电出力(MW)"]) = keyList t5 :=
    keyList_selectCols (by decide) (by decide)
  have e6 : keyList (selectCols t6 ["日期", "时点", "日前出清价格(元/MWh)"]) = keyList t6 :=
    keyList_selectCols (by decide) (by decide)
  have k1 := mergeOuter_keyList (selectCols t1 ["日期", "时点", "省调负荷(MW)"])
    (selectCols t2 ["日期", "时点", "风电(MW)", "光伏(MW)", "新能源负荷(MW)"])
    (by rw [e1]; exact h1) (by rw [e2]; exact h2)
  have k2 := mergeOuter_keyList _ (selectCols t3 ["日期", "时点", "非市场化出力(MW)"])
    k1.1 (by rw [e3]; exact h3)
  have k3 := mergeOuter_keyList _ (selectCols t4 ["日期", "时点", "联络线计划(MW)"])
    k2.1 (by rw [e4]; exact h4)
  have k4 := mergeOuter_keyList _ (selectCols t5 ["日期", "时点", "水电出力(MW)"])
    k3.1 (by rw [e5]; exact h5)
  have k5 := mergeOuter_keyList _ (selectCols t6 ["日期", "时点", "日前出清价格(元/MWh)"])
    k4.1 (by rw [e6]; exact h6)
  constructor
  · simp only [build_day_ahead]
    rw [keyList_setCol (by decide) (by decide), keyList_setCol (by decide) (by decide)]
    exact k5.1
  · simp only [build_day_ahead]
    rw [keyList_setCol (by decide) (by decide), keyList_setCol (by decide) (by decide)]
    rw [k5.2, k4.2, k3.2, k2.2, k1.2, e1, e2, e3, e4, e5, e6]

theorem build_day_ahead_epoch (t1 t2 t3 t4 t5 t6 : DataFrame) (oc : Option ℚ) :
    ∀ r ∈ (build_day_ahead t1 t2 t3 t4 t5 t6 oc).rows,
      getCell r ("边界数据类型") = Cell.str ("日前") ∧
      getCell r ("在线机组容量(MW)") = ocCell oc := by
  intro r hr
  simp only [build_day_ahead, setCol] at hr
  rw [List.mem_map] at hr
  obtain ⟨r1, hr1, rfl⟩ := hr
  rw [List.mem_map] at hr1
  obtain ⟨r0, hr0, rfl⟩ := hr1
  constructor
  · rw [getCell_setCell_ne _ _ (by decide)]
    exact getCell_setCell_self _ _ _
  · exact getCell_setCell_self _ _ _

theorem mergeLeft_cell_null {ks : List String} {A B : DataFrame} {c : String}
    (hA : ∀ r ∈ A.rows, getCell r c = Cell.null)
    (hB : ∀ r ∈ B.rows, getCell r c = Cell.null) :
    ∀ r ∈ (mergeLeft ks A B).rows, getCell r c = Cell.null := by
  intro r hr
  unfold mergeLeft at hr
  dsimp only at hr
  rw [List.mem_flatMap] at hr
  obtain ⟨a, ha, hma⟩ := hr
  rcases matchRows_cases hma with heq | ⟨b, hb, heq⟩
  · rw [heq]
    exact hA a ha
  · rw [heq]
    exact getCell_append_null (hA a ha) (hB b hb)

theorem selectCols_cell_null {df : DataFrame} {cs : List String} {c : String}
    (hc : ¬ c ∈ cs) : ∀ r ∈ (selectCols df cs).rows, getCell r c = Cell.null := by
  intro r hr
  simp only [selectCols] at hr
  rw [List.mem_map] at hr
  obtain ⟨r0, _, rfl⟩ := hr
  exact getCell_selectRow_not_mem _ hc

theorem build_real_time_epoch (ta ttr tp : DataFrame) :
    ∀ r ∈ (build_real_time ta ttr tp).rows,
      getCell r ("边界数据类型") = Cell.str ("实时") ∧
      getCell r ("在线机组容量(MW)") = Cell.null := by
  intro r hr
  simp only [build_real_time, setCol] at hr
  rw [List.mem_map] at hr
  obtain ⟨r1, hr1, rfl⟩ := hr
  refine ⟨getCell_setCell_self _ _ _, ?_⟩
  rw [getCell_setCell_ne _ _ (by decide)]
  refine mergeLeft_cell_null (mergeLeft_cell_null ?_ ?_) ?_ r1 hr1
  · exact selectCols_cell_null (by decide)
  · exact selectCols_cell_null (by decide)
  · exact selectCols_cell_null (by decide)

theorem reconcile_forecast_perm (t1 t2 t3 t4 t5 ta ttr tp : DataFrame) (oc : Option ℚ) :
    (forecastRows (reconcile t1 t2 t3 t4 t5 ta ttr tp oc)).Perm
      ((build_day_ahead t1 t2 t3 t4 t5 tp oc).rows.map (selectRow unifiedColumns)) := by
  have hperm : (reconcile t1 t2 t3 t4 t5 ta ttr tp oc).rows.Perm
      (((build_day_ahead t1 t2 t3 t4 t5 tp oc).rows ++ (build_real_time ta ttr tp).rows).map
        (selectRow unifiedColumns)) := by
    simp only [reconcile, sortUnified, selectCols, ensureCols, concatDF]
    exact List.mergeSort_perm _ _
  unfold forecastRows
  have h2 := hperm.filter (fun r => decide (getCell r ("边界数据类型") = Cell.str ("日前")))
  rw [List.filter_map, List.filter_append] at h2
  have hday : List.filter
      ((fun r => decide (getCell r ("边界数据类型") = Cell.str ("日前"))) ∘ selectRow unifiedColumns)
      (build_day_ahead t1 t2 t3 t4 t5 tp oc).rows = (build_day_ahead t1 t2 t3 t4 t5 tp oc).rows := by
    refine List.filter_eq_self.mpr ?_
    intro r hr
    have hb := (build_day_ahead_epoch t1 t2 t3 t4 t5 tp oc r hr).1
    simp [Function.comp, getCell_selectRow_mem r (show "边界数据类型" ∈ unifiedColumns by decide), hb]
  have hrt : List.filter
      ((fun r => decide (getCell r ("边界数据类型") = Cell.str ("日前"))) ∘ selectRow unifiedColumns)
      (build_real_time ta ttr tp).rows = [] := by
    refine List.filter_eq_nil_iff.mpr ?_
    intro r hr
    have hb := (build_real_time_epoch ta ttr tp r hr).1
    simp [Function.comp, getCell_selectRow_mem r (show "边界数据类型" ∈ unifiedColumns by decide), hb]
  rw [hday, hrt, List.append_nil] at h2
  exact h2

/-- C6: with unique (日期, 时点) keys in each contributing forecast
source, the forecast-epoch partition of the unified table has exactly
the outer-join cardinality — the number of distinct keys in the union of
the six joined tables — and every key present in any contributing
source appears in the partition, so no key is lost by the successive
outer joins. -/
theorem C6_forecast_outer_join_keys
    (t_load t_renewable t_disclosure t_tie_line t_hydro t_actual t_tie_line_rt t_price : DataFrame)
    (oc : Option ℚ)
    (h1 : (keyList t_load).Nodup) (h2 : (keyList t_renewable).Nodup)
    (h3 : (keyList t_disclosure).Nodup) (h4 : (keyList t_tie_line).Nodup)
    (h5 : (keyList t_hydro).Nodup) (h6 : (keyList t_price).Nodup) :
    (forecastRows (reconcile t_load t_renewable t_disclosure t_tie_line t_hydro
        t_actual t_tie_line_rt t_price oc)).length =
      ((keyList t_load).toFinset ∪ (keyList t_renewable).toFinset ∪
       (keyList t_disclosure).toFinset ∪ (keyList t_tie_line).toFinset ∪
       (keyList t_hydro).toFinset ∪ (keyList t_price).toFinset).card ∧
    ∀ k, (k ∈ keyList t_load ∨ k ∈ keyList t_renewable ∨ k ∈ keyList t_disclosure ∨
          k ∈ keyList t_tie_line ∨ k ∈ keyList t_hydro ∨ k ∈ keyList t_price) →
      k ∈ (forecastRows (reconcile t_load t_renewable t_disclosure t_tie_line t_hydro
        t_actual t_tie_line_rt t_price oc)).map (keyOf joinKeyCols) := by
  have hperm := reconcile_forecast_perm t_load t_renewable t_disclosure t_tie_line t_hydro
    t_actual t_tie_line_rt t_price oc
  have hday := build_day_ahead_keys t_load t_renewable t_disclosure t_tie_line t_hydro
    t_price oc h1 h2 h3 h4 h5 h6
  constructor
  · rw [hperm.length_eq, List.length_map]
    rw [show (build_day_ahead t_load t_renewable t_disclosure t_tie_line t_hydro
        t_price oc).rows.length =
      (keyList (build_day_ahead t_load t_renewable t_disclosure t_tie_line t_hydro
        t_price oc)).length from (List.length_map _ _).symm]
    rw [← List.toFinset_card_of_nodup hday.1, hday.2]
  · intro k hk
    have hk2 : k ∈ (keyList (build_day_ahead t_load t_renewable t_disclosure t_tie_line
        t_hydro t_price oc)).toFinset := by
      rw [hday.2]
      rcases hk with hk | hk | hk | hk | hk | hk
      · exact Finset.mem_union_left _ (Finset.mem_union_left _ (Finset.mem_union_left _
          (Finset.mem_union_left _ (Finset.mem_union_left _ (List.mem_toFinset.mpr hk)))))
      · exact Finset.mem_union_left _ (Finset.mem_union_left _ (Finset.mem_union_left _
          (Finset.mem_union_left _ (Finset.mem_union_right _ (List.mem_toFinset.mpr hk)))))
      · exact Finset.mem_union_left _ (Finset.mem_union_left _ (Finset.mem_union_left _
          (Finset.mem_union_right _ (List.mem_toFinset.mpr hk))))
      · exact Finset.mem_union_left _ (Finset.mem_union_left _
          (Finset.mem_union_right _ (List.mem_toFinset.mpr hk)))
      · exact Finset.mem_union_left _ (Finset.mem_union_right _ (List.mem_toFinset.mpr hk))
      · exact Finset.mem_union_right _ (List.mem_toFinset.mpr hk)
    rw [List.mem_toFinset] at hk2
    obtain ⟨r0, hr0, rfl⟩ := List.mem_map.mp hk2
    rw [(hperm.map (keyOf joinKeyCols)).mem_iff, List.map_map]
    refine List.mem_map.mpr ⟨r0, hr0, ?_⟩
    exact keyOf_selectRow_unified r0

/-- C6 witness: the claim theorem applied to concrete one-row and empty
normalized sources with pairwise-distinct keys. -/
theorem C6_forecast_outer_join_keys_witness :
    ((keyList tLoadW).Nodup ∧ (keyList tRenewW).Nodup ∧ (keyList tPriceW).Nodup) ∧
    ((forecastRows (reconcile tLoadW tRenewW tDiscW tTieW tHydroW
        tActW tTieW tPriceW (some 42340))).length =
      ((keyList tLoadW).toFinset ∪ (keyList tRenewW).toFinset ∪
       (keyList tDiscW).toFinset ∪ (keyList tTieW).toFinset ∪
       (keyList tHydroW).toFinset ∪ (keyList tPriceW).toFinset).card ∧
     ∀ k, (k ∈ keyList tLoadW ∨ k ∈ keyList tRenewW ∨ k ∈ keyList tDiscW ∨
           k ∈ keyList tTieW ∨ k ∈ keyList tHydroW ∨ k ∈ keyList tPriceW) →
       k ∈ (forecastRows (reconcile tLoadW tRenewW tDiscW tTieW tHydroW
         tActW tTieW tPriceW (some 42340))).map (keyOf joinKeyCols)) :=
  ⟨⟨by decide, by decide, by decide⟩,
   C6_forecast_outer_join_keys tLoadW tRenewW tDiscW tTieW tHydroW tActW tTieW tPriceW
     (some 42340) (by decide) (by decide) (by decide) (by decide) (by decide) (by decide)⟩

/-- C7: in every reconciled table, the online-capacity column holds the
single extracted scalar on every forecast-epoch row and is null on every
realtime-epoch row. -/
theorem C7_online_capacity_broadcast
    (t_load t_renewable t_disclosure t_tie_line t_hydro t_actual t_tie_line_rt t_price : DataFrame)
    (oc : Option ℚ) :
    ∀ r ∈ (reconcile t_load t_renewable t_disclosure t_tie_line t_hydro
        t_actual t_tie_line_rt t_price oc).rows,
      (getCell r ("边界数据类型") = Cell.str ("日前") →
        getCell r ("在线机组容量(MW)") = ocCell oc) ∧
      (getCell r ("边界数据类型") = Cell.str ("实时") →
        getCell r ("在线机组容量(MW)") = Cell.null) := by
  intro r hr
  simp only [reconcile, sortUnified] at hr
  rw [List.mem_mergeSort] at hr
  simp only [selectCols, ensureCols, concatDF] at hr
  rw [List.mem_map] at hr
  obtain ⟨r0, hr0, rfl⟩ := hr
  rw [List.mem_append] at hr0
  have hsel1 : getCell (selectRow unifiedColumns r0) ("边界数据类型") =
      getCell r0 ("边界数据类型") := getCell_selectRow_mem r0 (by decide)
  have hsel2 : getCell (selectRow unifiedColumns r0) ("在线机组容量(MW)") =
      getCell r0 ("在线机组容量(MW)") := getCell_selectRow_mem r0 (by decide)
  rcases hr0 with hday | hrt
  · obtain ⟨he, hoc⟩ := build_day_ahead_epoch t_load t_renewable t_disclosure t_tie_line
      t_hydro t_price oc r0 hday
    constructor
    · intro _
      rw [hsel2, hoc]
    · intro hcon
      rw [hsel1, he] at hcon
      exact absurd hcon (by decide)
  · obtain ⟨he, hoc⟩ := build_real_time_epoch t_actual t_tie_line_rt t_price r0 hrt
    constructor
    · intro hcon
      rw [hsel1, he] at hcon
      exact absurd hcon (by decide)
    · intro _
      rw [hsel2, hoc]

/-- C7 witness: the claim theorem applied to a realtime-only run with a
concrete telemetry row; its unified row carries the realtime epoch label
and a null online capacity. -/
theorem C7_online_capacity_broadcast_witness :
    (rRtW ∈ (reconcile tLoadE tRenewE tDiscW tTieW tHydroW tActW tTieW tPriceW
        (some 42340)).rows) ∧
    ((getCell rRtW ("边界数据类型") = Cell.str ("日前") →
        getCell rRtW ("在线机组容量(MW)") = ocCell (some 42340)) ∧
     (getCell rRtW ("边界数据类型") = Cell.str ("实时") →
        getCell rRtW ("在线机组容量(MW)") = Cell.null)) := by
  have hm : rRtW ∈ (reconcile tLoadE tRenewE tDiscW tTieW tHydroW tActW tTieW tPriceW
      (some 42340)).rows := List.mem_mergeSort.mpr (by decide)
  exact ⟨hm, C7_online_capacity_broadcast tLoadE tRenewE tDiscW tTieW tHydroW tActW tTieW
    tPriceW (some 42340) rRtW hm⟩
